import Mathlib

/-!
Shallow embedding of the entity/collision/update core of the fight-game-idk
repository (Entity, Player, Bullet, Game).

Modelling conventions:
- C++ `float` values (positions, hit points, velocities, frame delta times)
  are modelled as exact rationals `ℚ`; every claim settled here is about
  signs, orderings and list structure, not about rounding.
- C++ `int` texture dimensions are modelled as `Int`, with C++ truncating
  integer division modelled by `Int.tdiv`.
- Pointer identity (`this == other.get()`, `m_Parent == other.get()`) is
  modelled by a `Nat` field `id` on every entity: distinct live objects have
  distinct addresses, hence distinct ids; `nullptr` is `Option.none`.
- The external raylib collaborator `LoadTexture` is an opaque synchronous
  function returning a texture with readable dimensions; it is modelled as a
  parameter `lt : String → Texture`.
- Operations whose C++ execution dereferences a null `shared_ptr` (undefined
  behaviour) are modelled as `Option`-returning functions that produce `none`
  at the offending step.
-/

/-- raylib `Texture2D`, restricted to the fields the core reads
(`width`, `height`). -/
structure Texture where
  width : Int
  height : Int
deriving DecidableEq

/-- raylib `Vector2`. -/
structure Vector2 where
  x : ℚ
  y : ℚ
deriving DecidableEq

/-- Base `Entity` state (src/unnamed/part_002, class `Entity`): name, hit
points, aliveness, velocity scalar, texture, position.  `id` models the
object's address. -/
structure EntityState where
  id : Nat
  m_Name : String
  m_Hp : ℚ
  m_IsAlive : Bool
  m_Velocity : ℚ
  m_Texture : Texture
  m_Position : Vector2
deriving DecidableEq

/-- `Entity::Entity(texturePath, name, hp)` (src/src/NPCs/Entity.cpp lines
13-18): sets `m_Name`, `m_Hp` and loads `m_Texture`; the remaining fields
keep the in-class initializers of src/unnamed/part_002: `m_IsAlive = true`,
`m_Velocity = 100.f`, `m_Position = {0, 0}`. -/
def entityNew (lt : String → Texture) (id : Nat) (texturePath name : String)
    (hp : ℚ) : EntityState :=
  { id := id
    m_Name := name
    m_Hp := hp
    m_IsAlive := true
    m_Velocity := 100
    m_Texture := lt texturePath
    m_Position := ⟨0, 0⟩ }

/-- `Entity::TakeDamage(damage)` (src/src/NPCs/Entity.cpp lines 29-40):
negative damage is negated (`damage = damage * -1`), then subtracted from
`m_Hp`; when the new `m_Hp <= 0`, `m_IsAlive` is set to `false` (and is
otherwise left unchanged). -/
def entityTakeDamage (damage : ℚ) (e : EntityState) : EntityState :=
  let d := if damage < 0 then damage * -1 else damage
  let hp := e.m_Hp - d
  { e with m_Hp := hp, m_IsAlive := if hp ≤ 0 then false else e.m_IsAlive }

/-- The four separating-axis early-return tests shared verbatim by
`Entity::CheckCollision` (src/src/NPCs/Entity.cpp lines 80-100) and
`Bullet::CheckCollision` (src/src/NPCs/Projectiles/Bullet.cpp lines 64-87):
each test uses strict `<`, so boxes whose boundaries merely touch are not
separated. -/
def aabbHit (self other : EntityState) : Bool :=
  if other.m_Position.x + (other.m_Texture.width : ℚ) < self.m_Position.x then false
  else if self.m_Position.x + (self.m_Texture.width : ℚ) < other.m_Position.x then false
  else if other.m_Position.y + (other.m_Texture.height : ℚ) < self.m_Position.y then false
  else if self.m_Position.y + (self.m_Texture.height : ℚ) < other.m_Position.y then false
  else true

/-- `Entity::CheckCollision(other)` (src/src/NPCs/Entity.cpp lines 80-100):
`this == other.get()` returns `false`; otherwise the four AABB tests decide.
The only side effect on a hit is a diagnostic log, so the model is pure. -/
def entityCheckCollision (self other : EntityState) : Bool :=
  if self.id = other.id then false
  else aabbHit self other

/-- `Game` display configuration (src/unnamed/part_005, class `Game`). -/
structure GameConfig where
  m_Width : Int
  m_Height : Int
  m_Title : String
deriving DecidableEq

/-- `Game::Game` as *defined* in src/src/Game.cpp lines 5-7: the definition's
parameter list is `(int height, int width, const char* title)` — the first
parameter initializes `m_Height` and the second `m_Width`, although the
header declaration (src/unnamed/part_005) names the first parameter `width`
and the second `height`. -/
def gameCtor (height width : Int) (title : String) : GameConfig :=
  { m_Width := width, m_Height := height, m_Title := title }

/-- The `(width, height, title)` arguments of the `InitWindow` call in
`Game::run` (src/src/Game.cpp lines 18-21): `InitWindow(m_Width, m_Height,
m_Title)`. -/
def runInitWindowArgs (g : GameConfig) : Int × Int × String :=
  (g.m_Width, g.m_Height, g.m_Title)

/-- One frame's input-device state, as sampled by the raylib query functions
Player::OnUpdate calls: `IsKeyDown(KEY_A/D/W/S)`, `IsKeyPressed(KEY_F)`
(edge-triggered) and `IsMouseButtonPressed(MOUSE_BUTTON_LEFT)`
(edge-triggered). -/
structure Input where
  keyA : Bool
  keyD : Bool
  keyW : Bool
  keyS : Bool
  keyF : Bool
  mouseLeft : Bool
deriving DecidableEq

/-- Texture path macros from src/include/NPCs/Player.h. -/
def IDLE : String := "resources/Player/idle.png"

/-- Texture path macro LEFT from src/include/NPCs/Player.h. -/
def LEFT : String := "resources/Player/left.png"

/-- Texture path macro RIGHT from src/include/NPCs/Player.h. -/
def RIGHT : String := "resources/Player/right.png"

/-- Texture path macro UP from src/include/NPCs/Player.h. -/
def UP : String := "resources/Player/up.png"

/-- `Bullet` state (src/include/NPCs/Projectiles/Bullet.h): an Entity plus the
`m_positiveXdirection` flag and the non-owning parent pointer `m_Parent`
(modelled as the parent's id, `none` for `nullptr`). -/
structure BulletState extends EntityState where
  m_positiveXdirection : Bool
  m_Parent : Option Nat
deriving DecidableEq

/-- `Player` state (src/include/NPCs/Player.h): an Entity plus the owned
bullet collection `m_Bullets`. -/
structure PlayerState extends EntityState where
  m_Bullets : List BulletState
deriving DecidableEq

/-- `Bullet::Bullet(parent, velocity, positiveXdirection)`
(src/src/NPCs/Projectiles/Bullet.cpp lines 19-29): initializes as
`Entity("Resources/Projectiles/bullet.png", "Bullet", 1.f)`, stores the
direction flag and parent, overwrites `m_Velocity` with the argument, then
halves both texture dimensions with C++ integer division. -/
def bulletNew (lt : String → Texture) (id : Nat) (parent : Option Nat)
    (velocity : ℚ) (positiveXdirection : Bool) : BulletState :=
  let base := entityNew lt id "Resources/Projectiles/bullet.png" "Bullet" 1
  { toEntityState :=
      { base with
        m_Velocity := velocity
        m_Texture := ⟨base.m_Texture.width.tdiv 2, base.m_Texture.height.tdiv 2⟩ }
    m_positiveXdirection := positiveXdirection
    m_Parent := parent }

/-- `Bullet::OnUpdate(dt)` (src/src/NPCs/Projectiles/Bullet.cpp lines 38-48):
when `m_positiveXdirection` is true the x position is DECREASED by
`m_Velocity * dt`, otherwise increased (the documented inversion relative to
the parameter's name). -/
def bulletOnUpdate (dt : ℚ) (b : BulletState) : BulletState :=
  if b.m_positiveXdirection then
    { b with m_Position := { b.m_Position with x := b.m_Position.x - b.m_Velocity * dt } }
  else
    { b with m_Position := { b.m_Position with x := b.m_Position.x + b.m_Velocity * dt } }

/-- `Entity::Update(dt)` dispatched on a Bullet (src/unnamed/part_002):
`CommonUpdate` is a no-op, then `Bullet::OnUpdate`. -/
def bulletUpdate (dt : ℚ) (b : BulletState) : BulletState :=
  bulletOnUpdate dt b

/-- `Player::Player()` (src/src/NPCs/Player.cpp lines 11-13):
`Entity("resources/Player/idle.png", "Player", 300.f)` with an empty bullet
collection.  Note that `300.f` is passed as the `hp` argument of the Entity
constructor; `m_Velocity` keeps the Entity in-class default `100.f`. -/
def playerNew (lt : String → Texture) (id : Nat) : PlayerState :=
  { toEntityState := entityNew lt id IDLE "Player" 300
    m_Bullets := [] }

/-- The four directional key blocks of `Player::OnUpdate`
(src/src/NPCs/Player.cpp lines 55-81), in source order A, D, W, S: each held
key overwrites the aiming flag and the displayed texture and displaces the
position by `m_Velocity * dt` along its axis.  The static global
`aiming_left` is threaded explicitly as `al`. -/
def movementStep (lt : String → Texture) (inp : Input) (dt : ℚ) (al : Bool)
    (p : PlayerState) : PlayerState × Bool :=
  let s := if inp.keyA then
      ({ p with m_Texture := lt LEFT,
                m_Position := { p.m_Position with x := p.m_Position.x - p.m_Velocity * dt } },
       true)
    else (p, al)
  let s := if inp.keyD then
      ({ s.1 with m_Texture := lt RIGHT,
                  m_Position := { s.1.m_Position with x := s.1.m_Position.x + s.1.m_Velocity * dt } },
       false)
    else s
  let s := if inp.keyW then
      ({ s.1 with m_Texture := lt UP,
                  m_Position := { s.1.m_Position with y := s.1.m_Position.y - s.1.m_Velocity * dt } },
       false)
    else s
  let s := if inp.keyS then
      ({ s.1 with m_Texture := lt IDLE,
                  m_Position := { s.1.m_Position with y := s.1.m_Position.y + s.1.m_Velocity * dt } },
       false)
    else s
  s

/-- The bullet constructed and positioned by the fire block of
`Player::OnUpdate` (src/src/NPCs/Player.cpp lines 82-92):
`new Bullet(this, 1000.f, aiming_left)`, then its position is set to
`(float(m_Texture.width / 2) + m_Position.x, float(m_Texture.height / 2) +
m_Position.y)` — the division is C++ `int` division, performed before the
cast to float. -/
def spawnBullet (lt : String → Texture) (fresh : Nat) (al : Bool)
    (p : PlayerState) : BulletState :=
  let b := bulletNew lt fresh (some p.id) 1000 al
  { b with m_Position :=
      ⟨(p.m_Texture.width.tdiv 2 : ℚ) + p.m_Position.x,
       (p.m_Texture.height.tdiv 2 : ℚ) + p.m_Position.y⟩ }

/-- The fire block of `Player::OnUpdate` (src/src/NPCs/Player.cpp lines
82-92): on `IsKeyPressed(KEY_F) || IsMouseButtonPressed(MOUSE_BUTTON_LEFT)`,
push exactly one new bullet onto `m_Bullets`. -/
def fireStep (lt : String → Texture) (inp : Input) (fresh : Nat) (al : Bool)
    (p : PlayerState) : PlayerState :=
  if inp.keyF || inp.mouseLeft then
    { p with m_Bullets := p.m_Bullets ++ [spawnBullet lt fresh al p] }
  else p

/-- Whether a bullet is subject to out-of-bounds pruning
(src/src/NPCs/Player.cpp lines 94-103): `pos > 5000 || pos < -5000`. -/
def bulletOutOfBounds (b : BulletState) : Bool :=
  5000 < b.m_Position.x || b.m_Position.x < -5000

/-- The bullet-pruning loop of `Player::OnUpdate` (src/src/NPCs/Player.cpp
lines 94-103).  The C++ erases from `m_Bullets` inside a range-for over the
same vector, which invalidates the loop's iterators (undefined behaviour);
this model restricts it to the defined part of the usual contiguous-vector
behaviour: erasing the element at the current slot shifts the next element
into that slot, and the subsequent iterator increment steps past it, so the
element immediately following a removed bullet is not examined in this
pass. -/
def pruneBullets : List BulletState → List BulletState
  | [] => []
  | b :: rest =>
    if bulletOutOfBounds b then
      match rest with
      | [] => []
      | c :: rest2 => c :: pruneBullets rest2
    else b :: pruneBullets rest

/-- `Player::OnUpdate(dt)` (src/src/NPCs/Player.cpp lines 53-108): movement
key blocks, then the fire block, then the out-of-bounds pruning loop, then
`Update(dt)` on every remaining bullet.  `al` is the static global
`aiming_left` (threaded in and out); `fresh` supplies the address of a
bullet the fire block may allocate. -/
def playerOnUpdate (lt : String → Texture) (inp : Input) (dt : ℚ) (al : Bool)
    (fresh : Nat) (p : PlayerState) : PlayerState × Bool :=
  let mv := movementStep lt inp dt al p
  let p1 := fireStep lt inp fresh mv.2 mv.1
  let p2 := { p1 with m_Bullets := (pruneBullets p1.m_Bullets).map (bulletUpdate dt) }
  (p2, mv.2)

/-- Claim C8: for all distinct entities A and B whose bounding boxes touch
exactly at an edge (`B.x = A.x + A.width`, with overlapping y-ranges and
nonnegative texture widths), `Entity::CheckCollision` returns `true`:
boundary equality counts as overlap, because the separating-axis tests use
strict `<`. -/
theorem edge_touch_is_collision (a b : EntityState)
    (hne : a.id ≠ b.id)
    (hx : b.m_Position.x = a.m_Position.x + (a.m_Texture.width : ℚ))
    (hwa : 0 ≤ a.m_Texture.width) (hwb : 0 ≤ b.m_Texture.width)
    (hy1 : a.m_Position.y ≤ b.m_Position.y + (b.m_Texture.height : ℚ))
    (hy2 : b.m_Position.y ≤ a.m_Position.y + (a.m_Texture.height : ℚ)) :
    entityCheckCollision a b = true := by
  have hwa' : (0 : ℚ) ≤ (a.m_Texture.width : ℚ) := by exact_mod_cast hwa
  have hwb' : (0 : ℚ) ≤ (b.m_Texture.width : ℚ) := by exact_mod_cast hwb
  have h1 : ¬ (b.m_Position.x + (b.m_Texture.width : ℚ) < a.m_Position.x) := by
    rw [hx]; linarith
  have h2 : ¬ (a.m_Position.x + (a.m_Texture.width : ℚ) < b.m_Position.x) := by
    rw [hx]; exact lt_irrefl _
  have h3 : ¬ (b.m_Position.y + (b.m_Texture.height : ℚ) < a.m_Position.y) :=
    not_lt.mpr hy1
  have h4 : ¬ (a.m_Position.y + (a.m_Texture.height : ℚ) < b.m_Position.y) :=
    not_lt.mpr hy2
  simp only [entityCheckCollision, aabbHit, if_neg hne, if_neg h1, if_neg h2,
    if_neg h3, if_neg h4]

/-- Claim C8 witness: two 10-by-10 entities, the second starting exactly where
the first ends on the x axis, with identical y-ranges, collide. -/
theorem edge_touch_is_collision_witness :
    entityCheckCollision
      { id := 1, m_Name := "A", m_Hp := 100, m_IsAlive := true, m_Velocity := 100,
        m_Texture := ⟨10, 10⟩, m_Position := ⟨0, 0⟩ }
      { id := 2, m_Name := "B", m_Hp := 100, m_IsAlive := true, m_Velocity := 100,
        m_Texture := ⟨10, 10⟩, m_Position := ⟨10, 0⟩ } = true :=
  edge_touch_is_collision _ _ (by decide) (by norm_num) (by decide) (by decide)
    (by norm_num) (by norm_num)

/-- Claim C10: a Game constructed with arguments `(w, h, title)` — in the
parameter order `(width, height, title)` of the header declaration — stores
`w` in `m_Height` and `h` in `m_Width`, because the constructor definition
binds its first parameter to `m_Height`; consequently `Game::run` passes the
two dimensions to `InitWindow` exchanged relative to the declared
`(width, height)` order. -/
theorem game_ctor_swaps_dimensions (w h : Int) (t : String) :
    (gameCtor w h t).m_Height = w ∧ (gameCtor w h t).m_Width = h ∧
      runInitWindowArgs (gameCtor w h t) = (h, w, t) :=
  ⟨rfl, rfl, rfl⟩

/-- A concrete LoadTexture collaborator returning 64-by-64 textures. -/
def lt64 : String → Texture := fun _ => ⟨64, 64⟩

/-- A concrete LoadTexture collaborator returning textures with an odd width:
81 by 100. -/
def ltOdd : String → Texture := fun _ => ⟨81, 100⟩

/-- The input frame with only the D (right) key held. -/
def inputD : Input := ⟨false, true, false, false, false, false⟩

/-- The input frame with nothing held or pressed. -/
def inputNone : Input := ⟨false, false, false, false, false, false⟩

/-- The input frame with only the fire key F freshly pressed. -/
def inputFire : Input := ⟨false, false, false, false, true, false⟩

/-- Claim C1 (evaluation at the failing input): `Player::Player()` does build
an Entity with the idle texture and name "Player", but the literal `300.f`
is bound to the `hp` parameter of `Entity(texturePath, name, hp)`, not to
the velocity: the constructed player has `m_Hp = 300` and keeps the Entity
default `m_Velocity = 100`, so holding D for `dt = 1` displaces the player
by `100`, not by `300` as the claim states. -/
theorem player_ctor_binds_300_to_hp :
    (playerNew lt64 0).m_Name = "Player" ∧
    (playerNew lt64 0).m_Texture = lt64 IDLE ∧
    (playerNew lt64 0).m_Hp = 300 ∧
    (playerNew lt64 0).m_Velocity = 100 ∧
    (playerOnUpdate lt64 inputD 1 false 5 (playerNew lt64 0)).1.m_Position.x = 100 := by
  refine ⟨rfl, rfl, rfl, rfl, ?_⟩
  norm_num [playerOnUpdate, movementStep, fireStep, pruneBullets, playerNew,
    entityNew, inputD, lt64]

/-- A bullet parked at x = 6000, outside the +5000 bound. -/
def oob1 : BulletState :=
  { bulletNew lt64 11 none 1000 false with m_Position := ⟨6000, 0⟩ }

/-- A second out-of-bounds bullet at x = 6000, adjacent to `oob1`. -/
def oob2 : BulletState :=
  { bulletNew lt64 12 none 1000 false with m_Position := ⟨6000, 0⟩ }

/-- Claim C2 (evaluation at the failing input): with two adjacent
out-of-bounds bullets, the pruning loop of `Player::OnUpdate` removes only
the first — erasing during the range-for shifts the second bullet into the
erased slot and the iterator increment steps past it — and the surviving
out-of-bounds bullet is then still updated by the same call, contradicting
the claim that every such bullet is removed and destroyed. -/
theorem prune_skips_adjacent_bullet :
    bulletOutOfBounds oob2 = true ∧
    pruneBullets [oob1, oob2] = [oob2] ∧
    (playerOnUpdate lt64 inputNone 1 false 5
        { playerNew lt64 0 with m_Bullets := [oob1, oob2] }).1.m_Bullets =
      [bulletUpdate 1 oob2] := by
  refine ⟨?_, ?_, ?_⟩
  · norm_num [bulletOutOfBounds, oob2, bulletNew, entityNew, lt64]
  · norm_num [pruneBullets, bulletOutOfBounds, oob1, oob2, bulletNew, entityNew, lt64]
  · norm_num [playerOnUpdate, movementStep, fireStep, pruneBullets,
      bulletOutOfBounds, oob1, oob2, bulletNew, playerNew, entityNew, inputNone, lt64]

/-- Claim C4: a bullet whose direction flag is true (the value the Player's
fire block passes when `aiming_left` is true) strictly decreases its x
position on each update with `dt > 0` and positive velocity, and one whose
flag is false strictly increases it; and the bullet spawned by the fire
block carries exactly the aiming flag as its direction and velocity 1000.
The inversion inside `Bullet::OnUpdate` (flag true means x decreases) and
the Player passing `aiming_left` for the parameter named
`positiveXdirection` cancel out, so aiming left does move bullets toward
decreasing x. -/
theorem bullet_direction_matches_aiming_flag (b : BulletState) (dt : ℚ)
    (lt : String → Texture) (fresh : Nat) (al : Bool) (p : PlayerState)
    (hdt : 0 < dt) (hv : 0 < b.m_Velocity) :
    ((b.m_positiveXdirection = true →
        (bulletUpdate dt b).m_Position.x < b.m_Position.x) ∧
      (b.m_positiveXdirection = false →
        b.m_Position.x < (bulletUpdate dt b).m_Position.x)) ∧
    ((spawnBullet lt fresh al p).m_positiveXdirection = al ∧
      (0 : ℚ) < (spawnBullet lt fresh al p).m_Velocity) := by
  have hpos : 0 < b.m_Velocity * dt := mul_pos hv hdt
  refine ⟨⟨?_, ?_⟩, ?_, ?_⟩
  · intro h
    simp only [bulletUpdate, bulletOnUpdate, h, if_pos]
    linarith
  · intro h
    simp only [bulletUpdate, bulletOnUpdate, h, Bool.false_eq_true, if_neg,
      not_false_eq_true]
    linarith
  · rfl
  · norm_num [spawnBullet, bulletNew, entityNew]

/-- Claim C4 witness: at `dt = 1`, a concrete left-flagged bullet of velocity
1000 moves left, and the spawn link holds for a concrete player. -/
theorem bullet_direction_matches_aiming_flag_witness :
    (((bulletNew lt64 9 none 1000 true).m_positiveXdirection = true →
        (bulletUpdate 1 (bulletNew lt64 9 none 1000 true)).m_Position.x <
          (bulletNew lt64 9 none 1000 true).m_Position.x) ∧
      ((bulletNew lt64 9 none 1000 true).m_positiveXdirection = false →
        (bulletNew lt64 9 none 1000 true).m_Position.x <
          (bulletUpdate 1 (bulletNew lt64 9 none 1000 true)).m_Position.x)) ∧
    ((spawnBullet lt64 7 true (playerNew lt64 0)).m_positiveXdirection = true ∧
      (0 : ℚ) < (spawnBullet lt64 7 true (playerNew lt64 0)).m_Velocity) :=
  bullet_direction_matches_aiming_flag (bulletNew lt64 9 none 1000 true) 1 lt64 7
    true (playerNew lt64 0) (by norm_num) (by norm_num [bulletNew, entityNew, lt64])

/-- Claim C5 counterexample: with an odd texture width (81), the bullet the
fire block spawns sits at x-offset `float(81 / 2) = 40` from the player, not
at exactly half the texture width (40.5): the C++ divides the `int` width by
2 before casting to float. -/
theorem spawn_position_not_exact_center :
    ¬ ((spawnBullet ltOdd 5 false (playerNew ltOdd 0)).m_Position.x =
        (playerNew ltOdd 0).m_Position.x +
          ((playerNew ltOdd 0).m_Texture.width : ℚ) / 2) := by
  have h : (81 : Int).tdiv 2 = 40 := by decide
  norm_num [spawnBullet, bulletNew, playerNew, entityNew, ltOdd, h]

/-- Claim C5 as amended: a single edge-triggered fire input appends exactly
one new bullet to the owned collection, positioned at the player's current
position plus the TRUNCATED integer half of the player's current texture
width and height (C++ `int` division by 2, which equals the exact half only
for even dimensions). -/
theorem fire_adds_one_truncated_center_bullet (lt : String → Texture)
    (inp : Input) (fresh : Nat) (al : Bool) (p : PlayerState)
    (hfire : inp.keyF = true ∨ inp.mouseLeft = true) :
    fireStep lt inp fresh al p =
      { p with m_Bullets := p.m_Bullets ++ [spawnBullet lt fresh al p] } ∧
    (spawnBullet lt fresh al p).m_Position =
      ⟨(p.m_Texture.width.tdiv 2 : ℚ) + p.m_Position.x,
        (p.m_Texture.height.tdiv 2 : ℚ) + p.m_Position.y⟩ := by
  constructor
  · unfold fireStep
    rcases hfire with h | h <;> simp [h]
  · rfl

/-- Claim C5 (amended) witness: firing with the F key on a concrete player
appends exactly the spawned bullet at the truncated texture center. -/
theorem fire_adds_one_truncated_center_bullet_witness :
    fireStep ltOdd inputFire 5 false (playerNew ltOdd 0) =
      { playerNew ltOdd 0 with
        m_Bullets := (playerNew ltOdd 0).m_Bullets ++
          [spawnBullet ltOdd 5 false (playerNew ltOdd 0)] } ∧
    (spawnBullet ltOdd 5 false (playerNew ltOdd 0)).m_Position =
      ⟨(((playerNew ltOdd 0).m_Texture.width.tdiv 2 : Int) : ℚ) +
          (playerNew ltOdd 0).m_Position.x,
        (((playerNew ltOdd 0).m_Texture.height.tdiv 2 : Int) : ℚ) +
          (playerNew ltOdd 0).m_Position.y⟩ :=
  fire_adds_one_truncated_center_bullet ltOdd inputFire 5 false
    (playerNew ltOdd 0) (Or.inl rfl)

/-- `Bullet::CheckCollision(other)` (src/src/NPCs/Projectiles/Bullet.cpp lines
64-87): returns false for the parent (`m_Parent != nullptr && m_Parent ==
other.get()`) and for the bullet itself; otherwise runs the same four AABB
tests as Entity, and on a hit applies `TakeDamage(30.f)` to the other entity
and `delete this`.  The model returns the disposition and the possibly
damaged other entity; a `true` disposition means the bullet destroyed
itself, so the caller must drop it. -/
def bulletCheckCollision (b : BulletState) (other : EntityState) :
    Bool × EntityState :=
  if b.m_Parent = some other.id then (false, other)
  else if b.id = other.id then (false, other)
  else if aabbHit b.toEntityState other then (true, entityTakeDamage 30 other)
  else (false, other)

/-- Claim C7: `Bullet::CheckCollision(other)` returns false and leaves the
other entity untouched when the other entity is the bullet's parent or the
bullet itself; otherwise on AABB overlap it applies exactly 30 damage via
`Entity::TakeDamage` and returns true (destroying the bullet), and without
overlap it returns false with no damage applied. -/
theorem bullet_collision_dispositions (b : BulletState) (e : EntityState) :
    bulletCheckCollision b e =
      if b.m_Parent = some e.id ∨ b.id = e.id then (false, e)
      else if aabbHit b.toEntityState e = true then (true, entityTakeDamage 30 e)
      else (false, e) := by
  unfold bulletCheckCollision
  by_cases h1 : b.m_Parent = some e.id
  · simp [h1]
  · by_cases h2 : b.id = e.id
    · simp [h1, h2]
    · simp [h1, h2]

/-- Normalizing the damage argument of `Entity::TakeDamage` (`damage =
damage * -1` for negative damage) is taking the absolute value. -/
theorem takeDamage_eq_abs (d : ℚ) (e : EntityState) :
    entityTakeDamage d e =
      { e with m_Hp := e.m_Hp - |d|,
               m_IsAlive := if e.m_Hp - |d| ≤ 0 then false else e.m_IsAlive } := by
  simp only [entityTakeDamage]
  rcases lt_or_le d 0 with h | h
  · simp only [if_pos h, abs_of_neg h, mul_neg_one]
  · simp only [if_neg (not_lt.mpr h), abs_of_nonneg h]

/-- `Entity::TakeDamage` never sets `m_IsAlive` back to true: a dead entity
stays dead through any further damage. -/
theorem takeDamage_preserves_dead (d : ℚ) (e : EntityState)
    (h : e.m_IsAlive = false) : (entityTakeDamage d e).m_IsAlive = false := by
  simp [entityTakeDamage, h]

/-- Once an entity is dead, the whole remaining damage trace stays dead. -/
theorem scanl_damage_dead (ds : List ℚ) :
    ∀ e : EntityState, e.m_IsAlive = false →
      (List.scanl (fun s d => entityTakeDamage d s) e ds).map EntityState.m_IsAlive
        = List.replicate (ds.length + 1) false := by
  induction ds with
  | nil =>
    intro e h
    simp [h]
  | cons d rest ih =>
    intro e h
    simp only [List.scanl_cons, List.singleton_append, List.map_cons, h,
      List.length_cons]
    rw [ih (entityTakeDamage d e) (takeDamage_preserves_dead d e h)]
    simp [List.replicate_succ]

/-- An alive entity whose hit points are covered by the cumulative absolute
damage of a nonempty call sequence dies at some call `k` and its aliveness
trace is `k` trues followed only by falses. -/
theorem scanl_damage_cross (ds : List ℚ) :
    ∀ e : EntityState, e.m_IsAlive = true → ds ≠ [] →
      e.m_Hp ≤ (ds.map (fun d => |d|)).sum →
      ∃ k, 1 ≤ k ∧ k ≤ ds.length ∧
        (List.scanl (fun s d => entityTakeDamage d s) e ds).map EntityState.m_IsAlive
          = List.replicate k true ++ List.replicate (ds.length + 1 - k) false := by
  induction ds with
  | nil =>
    intro e _ hne _
    exact absurd rfl hne
  | cons d rest ih =>
    intro e halive _ hsum
    simp only [List.map_cons, List.sum_cons] at hsum
    by_cases hd : e.m_Hp - |d| ≤ 0
    · have hdead : (entityTakeDamage d e).m_IsAlive = false := by
        simp [takeDamage_eq_abs, hd]
      refine ⟨1, le_refl 1, by simp, ?_⟩
      simp only [List.scanl_cons, List.singleton_append, List.map_cons, halive,
        List.length_cons]
      rw [scanl_damage_dead rest _ hdead]
      rfl
    · have hd' : 0 < e.m_Hp - |d| := not_le.mp hd
      have halive1 : (entityTakeDamage d e).m_IsAlive = true := by
        simp [takeDamage_eq_abs, hd, halive]
      have hhp1 : (entityTakeDamage d e).m_Hp = e.m_Hp - |d| := by
        rw [takeDamage_eq_abs]
      have hne1 : rest ≠ [] := by
        intro h0
        rw [h0] at hsum
        simp at hsum
        linarith
      have hsum1 : (entityTakeDamage d e).m_Hp ≤ (rest.map (fun x => |x|)).sum := by
        rw [hhp1]
        linarith
      obtain ⟨k, hk1, hk2, htr⟩ := ih (entityTakeDamage d e) halive1 hne1 hsum1
      refine ⟨k + 1, by omega, by simp only [List.length_cons]; omega, ?_⟩
      simp only [List.scanl_cons, List.singleton_append, List.map_cons, halive,
        List.length_cons]
      rw [htr]
      have harith : rest.length + 1 + 1 - (k + 1) = rest.length + 1 - k := by omega
      rw [harith, List.replicate_succ, List.cons_append]

/-- Claim C9: for every entity and every nonempty `TakeDamage` call sequence
whose cumulative (absolute) amount meets or exceeds the entity's hit points,
the aliveness trace consists of `k ≥ 1` trues followed only by falses — the
flag flips from true to false exactly once — and no `TakeDamage` call of any
amount ever turns a dead entity alive again. -/
theorem damage_death_once_and_terminal (e : EntityState) (ds : List ℚ)
    (halive : e.m_IsAlive = true) (hne : ds ≠ [])
    (hsum : e.m_Hp ≤ (ds.map (fun d => |d|)).sum) :
    (∃ k, 1 ≤ k ∧ k ≤ ds.length ∧
      (List.scanl (fun s d => entityTakeDamage d s) e ds).map EntityState.m_IsAlive
        = List.replicate k true ++ List.replicate (ds.length + 1 - k) false) ∧
    ∀ (e2 : EntityState) (d : ℚ), e2.m_IsAlive = false →
      (entityTakeDamage d e2).m_IsAlive = false :=
  ⟨scanl_damage_cross ds e halive hne hsum,
   fun e2 d h => takeDamage_preserves_dead d e2 h⟩

/-- Claim C9 witness: a 10-hit-point entity hit for 4 then 7 (total 11 ≥ 10)
has aliveness trace true, true, false, and dead entities stay dead. -/
theorem damage_death_once_and_terminal_witness :
    (∃ k, 1 ≤ k ∧ k ≤ ([(4 : ℚ), 7]).length ∧
      (List.scanl (fun s d => entityTakeDamage d s)
          (entityNew lt64 0 "e.png" "E" 10) [(4 : ℚ), 7]).map EntityState.m_IsAlive
        = List.replicate k true ++
            List.replicate (([(4 : ℚ), 7]).length + 1 - k) false) ∧
    ∀ (e2 : EntityState) (d : ℚ), e2.m_IsAlive = false →
      (entityTakeDamage d e2).m_IsAlive = false :=
  damage_death_once_and_terminal (entityNew lt64 0 "e.png" "E" 10) [(4 : ℚ), 7]
    rfl (List.cons_ne_nil _ _) (by norm_num [entityNew, lt64])

/-- A non-null element of the Game's `m_Entities` collection
(src/unnamed/part_005: `std::vector<std::shared_ptr<Entity>>`): dynamically
either a plain `Entity` or a `Player` (the `dynamic_cast<Player*>` target in
`Game::update`). -/
inductive GEnt where
  | plain : EntityState → GEnt
  | player : PlayerState → GEnt
deriving DecidableEq

/-- The `Entity` base subobject of a collection element. -/
def GEnt.base : GEnt → EntityState
  | plain e => e
  | player p => p.toEntityState

/-- Overwrite the `Entity` base subobject of a collection element (the effect
of `Entity::TakeDamage` reaching a Player or plain Entity through its base
class). -/
def GEnt.setBase : GEnt → EntityState → GEnt
  | plain _, e => plain e
  | player p, e => player { p with toEntityState := e }

/-- `Entity::IsAlive()` on a collection element. -/
def GEnt.isAlive (g : GEnt) : Bool := g.base.m_IsAlive

/-- Aliveness of a collection slot; `none` (a null shared_ptr) is counted as
not alive.  Used only to STATE the removal pass's filtering effect; the
modelled removal pass itself fails on a null slot exactly as the C++ null
dereference does. -/
def optAlive : Option GEnt → Bool
  | none => false
  | some g => g.isAlive

/-- `Entity::CheckCollision(std::vector<std::shared_ptr<Entity>>)`
(src/unnamed/part_002): tests elements in order and returns true at the
first collision without visiting the rest.  Calling the single-entity
overload on a null element dereferences it (`other->GetPosition()`), which
the model reports as `none`. -/
def entityCheckList (self : EntityState) : List (Option GEnt) → Option Bool
  | [] => some false
  | none :: _ => none
  | some g :: rest =>
    if entityCheckCollision self g.base then some true
    else entityCheckList self rest

/-- `Bullet::CheckCollision(std::vector<std::shared_ptr<Entity>>)`
(src/src/NPCs/Projectiles/Bullet.cpp lines 96-109): short-circuits at the
first collision, damaging only that entity; a null element is dereferenced
by the single-entity overload (`none` in the model).  Returns the
disposition together with the updated collection slots. -/
def bulletCheckList (b : BulletState) :
    List (Option GEnt) → Option (Bool × List (Option GEnt))
  | [] => some (false, [])
  | none :: _ => none
  | some g :: rest =>
    match bulletCheckCollision b g.base with
    | (true, e2) => some (true, some (g.setBase e2) :: rest)
    | (false, _) =>
      match bulletCheckList b rest with
      | none => none
      | some (r, rest2) => some (r, some g :: rest2)

/-- The `std::remove_if` pass of `Game::update` over a Player's `m_Bullets`
(src/src/Game.cpp lines 74-83): the predicate
`bullet->CheckCollision(m_Entities)` is applied to each bullet in order
(damaging at most one entity per colliding bullet and deleting that bullet);
bullets for which it returns true are removed, the rest keep their order. -/
def bulletPass : List BulletState → List (Option GEnt) →
    Option (List BulletState × List (Option GEnt))
  | [], es => some ([], es)
  | b :: bs, es =>
    match bulletCheckList b es with
    | none => none
    | some (true, es1) => bulletPass bs es1
    | some (false, es1) =>
      match bulletPass bs es1 with
      | none => none
      | some (kept, es2) => some (b :: kept, es2)

/-- `entity->Update(dt)` dispatched on a collection element
(src/unnamed/part_002): `CommonUpdate` is a no-op; a plain Entity's
`OnUpdate` is the default no-op, a Player's is `Player::OnUpdate`.  `al` is
the global `aiming_left`; `fresh` supplies the address for a bullet the
Player may allocate. -/
def gentUpdate (lt : String → Texture) (inp : Input) (dt : ℚ) (al : Bool)
    (fresh : Nat) : GEnt → GEnt × Bool
  | GEnt.plain e => (GEnt.plain e, al)
  | GEnt.player p =>
    let pr := playerOnUpdate lt inp dt al fresh p
    (GEnt.player pr.1, pr.2)

/-- The per-entity loop of `Game::update` (src/src/Game.cpp lines 67-85),
iterated by index with fuel (the collection's slot count is not changed
during the loop): null slots are skipped (`if (!entity) continue`); each
non-null entity is updated in place, then `CheckCollision(m_Entities)` runs
(result discarded; it can still dereference null slots), then for a Player
the collided bullets are filtered out by `bulletPass` and written back. -/
def gameLoop (lt : String → Texture) (inp : Input) (dt : ℚ) :
    Nat → Nat → List (Option GEnt) × Bool × Nat →
    Option (List (Option GEnt) × Bool × Nat)
  | 0, _, st => some st
  | fuel + 1, i, (es, al, nid) =>
    match es.get? i with
    | none => some (es, al, nid)
    | some none => gameLoop lt inp dt fuel (i + 1) (es, al, nid)
    | some (some g) =>
      let gu := gentUpdate lt inp dt al nid g
      let es1 := es.set i (some gu.1)
      match entityCheckList gu.1.base es1 with
      | none => none
      | some _ =>
        match gu.1 with
        | GEnt.plain _ => gameLoop lt inp dt fuel (i + 1) (es1, gu.2, nid + 1)
        | GEnt.player p =>
          match bulletPass p.m_Bullets es1 with
          | none => none
          | some (kept, es2) =>
            match es2.get? i with
            | some (some (GEnt.player p2)) =>
              gameLoop lt inp dt fuel (i + 1)
                (es2.set i (some (GEnt.player { p2 with m_Bullets := kept })),
                 gu.2, nid + 1)
            | _ => none

/-- The final erase/remove_if pass of `Game::update` (src/src/Game.cpp lines
86-92): the predicate `!e->IsAlive()` is evaluated on EVERY slot — a null
slot is dereferenced without a guard (undefined behaviour, `none` in the
model); surviving entities keep their order. -/
def removalPass : List (Option GEnt) → Option (List (Option GEnt))
  | [] => some []
  | none :: _ => none
  | some g :: rest =>
    match removalPass rest with
    | none => none
    | some r => some (if g.isAlive then some g :: r else r)

/-- `Game::update(dt)` (src/src/Game.cpp lines 67-93): the per-entity loop
over all slots, then the removal pass. -/
def gameUpdate (lt : String → Texture) (inp : Input) (dt : ℚ) (al : Bool)
    (nid : Nat) (es : List (Option GEnt)) :
    Option (List (Option GEnt) × Bool × Nat) :=
  match gameLoop lt inp dt es.length 0 (es, al, nid) with
  | none => none
  | some (mid, al1, nid1) =>
    match removalPass mid with
    | none => none
    | some es1 => some (es1, al1, nid1)

/-- Claim C3 (evaluation at the failing input): on a collection holding one
null slot, the per-entity loop does skip it silently, but the final removal
pass dereferences the null slot in its `!e->IsAlive()` predicate, so the
whole `Game::update` call does not complete without error. -/
theorem update_crashes_on_null_entry (lt : String → Texture) (inp : Input)
    (dt : ℚ) (al : Bool) (nid : Nat) :
    gameLoop lt inp dt 1 0 ([none], al, nid) = some ([none], al, nid) ∧
    removalPass [none] = none ∧
    gameUpdate lt inp dt al nid [none] = none :=
  ⟨rfl, rfl, rfl⟩

/-- The successful removal pass is exactly `List.filter` by aliveness. -/
theorem removalPass_eq_filter : ∀ l r : List (Option GEnt),
    removalPass l = some r → r = l.filter optAlive := by
  intro l
  induction l with
  | nil =>
    intro r h
    simp only [removalPass, Option.some.injEq] at h
    simp [← h]
  | cons o rest ih =>
    intro r h
    match o with
    | none => simp [removalPass] at h
    | some g =>
      cases hr : removalPass rest with
      | none => simp [removalPass, hr] at h
      | some r0 =>
        simp only [removalPass, hr, Option.some.injEq] at h
        subst h
        rw [List.filter_cons]
        by_cases hg : g.isAlive
        · simp [optAlive, hg, ih r0 hr]
        · simp [optAlive, hg, ih r0 hr]

/-- Claim C6: whenever `Game::update` completes, its resulting collection is
exactly the aliveness-filter of the collection as it stood after the
per-entity loop: no non-alive entity is retained, every alive entity is
retained, and survivors keep their relative order (the result is a sublist
of the processed collection). -/
theorem update_filters_dead_preserving_order (lt : String → Texture)
    (inp : Input) (dt : ℚ) (al : Bool) (nid : Nat)
    (es res : List (Option GEnt)) (al1 : Bool) (nid1 : Nat)
    (h : gameUpdate lt inp dt al nid es = some (res, al1, nid1)) :
    ∃ mid, gameLoop lt inp dt es.length 0 (es, al, nid) = some (mid, al1, nid1) ∧
      res = mid.filter optAlive ∧
      (∀ o ∈ res, optAlive o = true) ∧
      res.Sublist mid := by
  unfold gameUpdate at h
  cases hl : gameLoop lt inp dt es.length 0 (es, al, nid) with
  | none => simp [hl] at h
  | some tr =>
    obtain ⟨mid, al2, nid2⟩ := tr
    cases hr : removalPass mid with
    | none => simp [hl, hr] at h
    | some r1 =>
      simp only [hl, hr, Option.some.injEq, Prod.mk.injEq] at h
      obtain ⟨h1, h2, h3⟩ := h
      subst h1
      subst h2
      subst h3
      have hf := removalPass_eq_filter mid r1 hr
      refine ⟨mid, rfl, hf, ?_, ?_⟩
      · intro o ho
        rw [hf] at ho
        exact List.of_mem_filter ho
      · rw [hf]
        exact List.filter_sublist mid

/-- A concrete enemy entity at position (500, 0), as created by `Game::run`. -/
def enemyC : EntityState :=
  { entityNew lt64 1 IDLE "Enemy" 100 with m_Position := ⟨500, 0⟩ }

/-- Claim C6 witness: updating a collection holding one alive enemy completes
and retains exactly that enemy. -/
theorem update_filters_dead_preserving_order_witness :
    ∃ mid, gameLoop lt64 inputNone 1
        ([some (GEnt.plain enemyC)] : List (Option GEnt)).length 0
        ([some (GEnt.plain enemyC)], false, 10) = some (mid, false, 11) ∧
      ([some (GEnt.plain enemyC)] : List (Option GEnt)) = mid.filter optAlive ∧
      (∀ o ∈ ([some (GEnt.plain enemyC)] : List (Option GEnt)), optAlive o = true) ∧
      ([some (GEnt.plain enemyC)] : List (Option GEnt)).Sublist mid :=
  update_filters_dead_preserving_order lt64 inputNone 1 false 10
    [some (GEnt.plain enemyC)] [some (GEnt.plain enemyC)] false 11 rfl
